import Mathlib

/-!
Verification of the request-handling layer of a Go HTTP todo service
(chi router + mgo/MongoDB, `src/main.go`).

The embedding is shallow:

* A BSON ObjectId is represented by its 24-character hexadecimal rendering,
  so `bson.ObjectId.Hex()` is the identity on the representation and
  `bson.IsObjectIdHex` is a predicate on strings.
* The MongoDB collection is a list of `BsonDoc` values, one per stored
  document.  A document's `createdAt` field is an `Option Nat` because a
  document replacement can leave the field absent; reading such a document
  back into the Go `TodoModel` struct yields the zero time (here `0`).
* mgo session semantics (the session is created by `mgo.Dial`, which enables
  safe mode): `Collection.Update` and `Collection.RemoveId` return
  `ErrNotFound` when no document matches the selector; `Update` with an
  update document containing no `$`-operators performs a full document
  replacement that keeps only `_id` and the fields of the replacement
  document.
* Each HTTP handler becomes a function from its request inputs and the
  current collection to a `Response` (status code plus rendered body) and
  the new collection.  JSON body decoding is represented by an
  `Option Todo` argument (`none` = decode error); infrastructure failures
  of the database are represented by explicit boolean arguments where a
  claim mentions them.
* Go's `nil` slice is distinguished from an empty slice: a slice built only
  by `append` starting from `var todoList []Todo` is modelled as
  `Option (List Todo)`, with `none` for the never-appended nil slice, which
  serializes to JSON `null`.
-/

namespace TodoSpec

/-- Wire representation (`Todo` in `main.go`): JSON body shape with fields
`id`, `title`, `completed`, `createdAt`. -/
structure Todo where
  ID : String
  Title : String
  Completed : Bool
  CreatedAt : Nat
deriving DecidableEq

/-- Storage representation (`TodoModel` in `main.go`) as unmarshalled from a
stored document. -/
structure TodoModel where
  ID : String
  Title : String
  Completed : Bool
  CreatedAt : Nat
deriving DecidableEq

/-- A document as actually stored in the MongoDB collection: the `_id` field
(in hex rendering), `title`, `completed`, and an optional `createdAt`
(`none` when the field is absent from the document). -/
structure BsonDoc where
  oid : String
  title : String
  completed : Bool
  createdAt : Option Nat
deriving DecidableEq

/-- Unmarshalling a stored document into the Go `TodoModel` struct: a missing
`createdAt` field leaves the Go zero value (time zero, here `0`). -/
def readModel (d : BsonDoc) : TodoModel :=
  { ID := d.oid, Title := d.title, Completed := d.completed,
    CreatedAt := d.createdAt.getD 0 }

/-- `bson.ObjectId.Hex()`: ObjectIds are represented by their hex rendering,
so this is the identity. -/
def objectIdHex (s : String) : String := s

/-- `strings.TrimSpace`: drops leading and trailing whitespace. -/
def trimSpace (s : String) : String :=
  String.mk
    (((s.toList.dropWhile Char.isWhitespace).reverse.dropWhile
        Char.isWhitespace).reverse)

/-- `bson.IsObjectIdHex`: true iff the string has length 24 and decodes as
hexadecimal (every character in `[0-9a-fA-F]`). -/
def isObjectIdHex (s : String) : Bool :=
  s.length == 24 &&
    s.toList.all (fun c =>
      c.isDigit || (('a' ≤ c) && (c ≤ 'f')) || (('A' ≤ c) && (c ≤ 'F')))

/-- HTTP status codes used by the handlers. -/
def StatusProcessing : Nat := 102
def StatusOK : Nat := 200
def StatusCreated : Nat := 201
def StatusBadRequest : Nat := 400

/-- The JSON body a handler renders. -/
inductive RespBody where
  /-- `renderer.M{"message": m}` -/
  | message (m : String)
  /-- `renderer.M{"message": m, "error": err}` -/
  | messageErr (m : String)
  /-- `renderer.M{"message": m, "todo_id": todoId}` -/
  | created (m : String) (todoId : String)
  /-- `renderer.M{"data": todoList}`; `none` is a nil slice, JSON `null` -/
  | data (d : Option (List Todo))
  /-- the raw decode error rendered directly (create handler) -/
  | decodeErr
  /-- nothing written: `net/http` then sends 200 with an empty body -/
  | empty
deriving DecidableEq

/-- A handler's HTTP response: status code and rendered body. -/
structure Response where
  status : Nat
  body : RespBody
deriving DecidableEq

/-- `db.C(collectionName).Find(bson.M{}).All(&todos)` on success: every
document unmarshalled into a `TodoModel`. -/
def findAll (store : List BsonDoc) : List TodoModel := store.map readModel

/-- `db.C(collectionName).Insert(&tm)` on success. -/
def insertDoc (store : List BsonDoc) (d : BsonDoc) : List BsonDoc :=
  store ++ [d]

/-- Remove the first document whose `_id` matches. -/
def removeFirst : List BsonDoc → String → List BsonDoc
  | [], _ => []
  | d :: rest, oid =>
    if d.oid == oid then rest else d :: removeFirst rest oid

/-- `Collection.RemoveId(oid)`: removes the single matching document; in safe
mode (the default for a dialled session) returns `ErrNotFound` when no
document matches. -/
def removeId (store : List BsonDoc) (oid : String) :
    Except Unit (List BsonDoc) :=
  if store.any (fun d => d.oid == oid) then
    Except.ok (removeFirst store oid)
  else
    Except.error ()

/-- Replace the first document whose `_id` matches by the replacement
document `{title, completed}`; `_id` is preserved, every other field —
in particular `createdAt` — is dropped. -/
def replaceFirst : List BsonDoc → String → String → Bool → List BsonDoc
  | [], _, _, _ => []
  | d :: rest, oid, title, completed =>
    if d.oid == oid then
      { oid := d.oid, title := title, completed := completed,
        createdAt := none } :: rest
    else
      d :: replaceFirst rest oid title completed

/-- `Collection.Update(bson.M{"_id": oid}, bson.M{"title": t, "completed": c})`:
the update document has no `$`-operators, so MongoDB performs a full
document replacement; in safe mode `ErrNotFound` is returned when no
document matches the selector. -/
def updateReplace (store : List BsonDoc) (oid : String) (title : String)
    (completed : Bool) : Except Unit (List BsonDoc) :=
  if store.any (fun d => d.oid == oid) then
    Except.ok (replaceFirst store oid title completed)
  else
    Except.error ()

/-- Go `append` on a possibly-nil slice (`var todoList []Todo`). -/
def goAppend (xs : Option (List Todo)) (t : Todo) : Option (List Todo) :=
  some (xs.getD [] ++ [t])

/-- The wire view of a stored record: the struct literal built in the loop
body of `fetchTodos` (`Todo{ID: t.ID.Hex(), Title: t.Title, Completed:
t.Completed, CreatedAt: t.CreatedAt}`). -/
def viewOf (m : TodoModel) : Todo :=
  { ID := objectIdHex m.ID, Title := m.Title, Completed := m.Completed,
    CreatedAt := m.CreatedAt }

/-- `fetchTodos`: `dbFail` is true when the `Find(...).All(...)` call
returns an error. -/
def fetchTodos (dbFail : Bool) (store : List BsonDoc) : Response :=
  if dbFail then
    { status := StatusProcessing, body := RespBody.messageErr "Failed to fetch Todo" }
  else
    let todos := findAll store
    let todoList := todos.foldl (fun acc t => goAppend acc (viewOf t)) none
    { status := StatusOK, body := RespBody.data todoList }

/-- `createTodo`: `body` is the JSON decode result, `newId` the ObjectId
produced by `bson.NewObjectId()` (hex rendering), `now` the value of
`time.Now()`, `insertFail` true when the `Insert` call returns an error. -/
def createTodo (body : Option Todo) (newId : String) (now : Nat)
    (insertFail : Bool) (store : List BsonDoc) :
    Response × List BsonDoc :=
  match body with
  | none => ({ status := StatusProcessing, body := RespBody.decodeErr }, store)
  | some t =>
    if t.Title == "" then
      ({ status := StatusBadRequest,
         body := RespBody.message "The title is required" }, store)
    else
      let tm : TodoModel :=
        { ID := newId, Title := t.Title, Completed := false, CreatedAt := now }
      if insertFail then
        ({ status := StatusProcessing,
           body := RespBody.message "Failed to save todo" }, store)
      else
        ({ status := StatusCreated,
           body := RespBody.created "todo created successfully" (objectIdHex tm.ID) },
         insertDoc store
           { oid := tm.ID, title := tm.Title, completed := tm.Completed,
             createdAt := some tm.CreatedAt })

/-- `deleteTodo`: `rawId` is the `{id}` URL parameter before `TrimSpace`. -/
def deleteTodo (rawId : String) (store : List BsonDoc) :
    Response × List BsonDoc :=
  let id := trimSpace rawId
  if !(isObjectIdHex id) then
    ({ status := StatusBadRequest,
       body := RespBody.message "The id is invalid" }, store)
  else
    match removeId store id with
    | Except.error _ =>
      ({ status := StatusBadRequest,
         body := RespBody.messageErr "Failed to delete todo" }, store)
    | Except.ok store1 =>
      ({ status := StatusOK,
         body := RespBody.message "Todo deleted successfully" }, store1)

/-- `updateTodo`: `rawId` is the `{id}` URL parameter before `TrimSpace`,
`body` the JSON decode result.  On a successful update nothing is written,
so `net/http` sends status 200 with an empty body. -/
def updateTodo (rawId : String) (body : Option Todo) (store : List BsonDoc) :
    Response × List BsonDoc :=
  let id := trimSpace rawId
  if !(isObjectIdHex id) then
    ({ status := StatusBadRequest,
       body := RespBody.message "The id is invalid" }, store)
  else
    match body with
    | none =>
      ({ status := StatusProcessing,
         body := RespBody.messageErr "The body is invalid" }, store)
    | some t =>
      if t.Title == "" then
        ({ status := StatusBadRequest,
           body := RespBody.message "The title field is required" }, store)
      else
        match updateReplace store id t.Title t.Completed with
        | Except.error _ =>
          ({ status := StatusProcessing,
             body := RespBody.message "Failed to update todo" }, store)
        | Except.ok store1 =>
          ({ status := StatusOK, body := RespBody.empty }, store1)

/-- Every record of the store has a non-empty title. -/
def titlesNonEmpty (store : List BsonDoc) : Bool :=
  store.all (fun d => !(d.title == ""))

/-- One client operation against the service: a create request (with its
decoded body, the ObjectId produced by `bson.NewObjectId()` and the
`time.Now()` value) or a delete request. -/
inductive Op where
  | create (t : Todo) (newId : String) (now : Nat)
  | delete (rawId : String)

/-- Run one operation against the store (database infrastructure healthy). -/
def applyOp (store : List BsonDoc) : Op → Response × List BsonDoc
  | Op.create t newId now => createTodo (some t) newId now false store
  | Op.delete rawId => deleteTodo rawId store

/-- The operation succeeded: 201 Created for a create, 200 OK for a delete. -/
def opOk (store : List BsonDoc) (o : Op) : Bool :=
  match o with
  | Op.create _ _ _ => (applyOp store o).1.status == StatusCreated
  | Op.delete _ => (applyOp store o).1.status == StatusOK

/-- Every operation in the sequence succeeds, run left to right. -/
def opsOk : List BsonDoc → List Op → Bool
  | _, [] => true
  | store, o :: rest => opOk store o && opsOk (applyOp store o).2 rest

/-- The store after running a sequence of operations. -/
def runOps : List BsonDoc → List Op → List BsonDoc
  | store, [] => store
  | store, o :: rest => runOps (applyOp store o).2 rest

/-- Number of create operations in a sequence. -/
def countCreates : List Op → Nat
  | [] => 0
  | Op.create _ _ _ :: rest => countCreates rest + 1
  | Op.delete _ :: rest => countCreates rest

/-- Number of delete operations in a sequence. -/
def countDeletes : List Op → Nat
  | [] => 0
  | Op.create _ _ _ :: rest => countDeletes rest
  | Op.delete _ :: rest => countDeletes rest + 1

/-- Number of records carried by a list response (a `null` data field carries
none). -/
def listedCount (r : Response) : Nat :=
  match r.body with
  | RespBody.data d => (d.getD []).length
  | _ => 0

/-! Fixtures: concrete values used by witnesses and counterexamples. -/

/-- A syntactically valid ObjectId hex string. -/
def oidA : String := "aaaaaaaaaaaaaaaaaaaaaaaa"

/-- A second, distinct valid ObjectId hex string. -/
def oidB : String := "bbbbbbbbbbbbbbbbbbbbbbbb"

/-- A stored document with a known creation timestamp. -/
def docA : BsonDoc :=
  { oid := oidA, title := "old", completed := false, createdAt := some 5 }

/-- A decoded request body with a non-empty title. -/
def tNew : Todo := { ID := "", Title := "new", Completed := true, CreatedAt := 0 }

/-! Helper lemmas. -/

theorem foldl_goAppend_some (l : List TodoModel) (ys : List Todo) :
    l.foldl (fun acc t => goAppend acc (viewOf t)) (some ys)
      = some (ys ++ l.map viewOf) := by
  induction l generalizing ys with
  | nil => simp
  | cons d rest ih =>
    rw [List.foldl_cons,
      show goAppend (some ys) (viewOf d) = some (ys ++ [viewOf d]) from rfl, ih]
    simp

theorem foldl_goAppend_none (l : List TodoModel) :
    l.foldl (fun acc t => goAppend acc (viewOf t)) none
      = match l with
        | [] => none
        | _ => some (l.map viewOf) := by
  cases l with
  | nil => rfl
  | cons d rest =>
    rw [List.foldl_cons,
      show goAppend none (viewOf d) = some ([] ++ [viewOf d]) from rfl,
      foldl_goAppend_some]
    simp

theorem fetchTodos_ok_eq (store : List BsonDoc) :
    fetchTodos false store =
      { status := StatusOK,
        body := RespBody.data
          (match store with
           | [] => none
           | _ => some ((store.map readModel).map viewOf)) } := by
  show Response.mk StatusOK
      (RespBody.data ((store.map readModel).foldl
        (fun acc t => goAppend acc (viewOf t)) none)) = _
  rw [foldl_goAppend_none]
  cases store <;> simp

theorem removeFirst_length (store : List BsonDoc) (oid : String)
    (h : store.any (fun d => d.oid == oid) = true) :
    (removeFirst store oid).length + 1 = store.length := by
  induction store with
  | nil => simp at h
  | cons d rest ih =>
    cases hd : (d.oid == oid) with
    | true => simp [removeFirst, hd]
    | false =>
      rw [List.any_cons, hd, Bool.false_or] at h
      have := ih h
      simp only [removeFirst, hd]
      simp only [Bool.false_eq_true, if_false, List.length_cons]
      omega

theorem titlesNonEmpty_removeFirst (store : List BsonDoc) (oid : String)
    (hinv : titlesNonEmpty store = true) :
    titlesNonEmpty (removeFirst store oid) = true := by
  induction store with
  | nil => exact hinv
  | cons d rest ih =>
    rw [titlesNonEmpty, List.all_cons, Bool.and_eq_true] at hinv
    cases hd : (d.oid == oid) with
    | true => simp only [removeFirst, hd, if_true]; exact hinv.2
    | false =>
      simp only [removeFirst, hd, Bool.false_eq_true, if_false]
      rw [titlesNonEmpty, List.all_cons, Bool.and_eq_true]
      exact ⟨hinv.1, ih hinv.2⟩

theorem titlesNonEmpty_replaceFirst (store : List BsonDoc)
    (oid title : String) (completed : Bool)
    (hinv : titlesNonEmpty store = true) (ht : (title == "") = false) :
    titlesNonEmpty (replaceFirst store oid title completed) = true := by
  induction store with
  | nil => exact hinv
  | cons d rest ih =>
    rw [titlesNonEmpty, List.all_cons, Bool.and_eq_true] at hinv
    cases hd : (d.oid == oid) with
    | true =>
      simp only [replaceFirst, hd, if_true]
      rw [titlesNonEmpty, List.all_cons, Bool.and_eq_true]
      refine ⟨?_, hinv.2⟩
      simp [ht]
    | false =>
      simp only [replaceFirst, hd, Bool.false_eq_true, if_false]
      rw [titlesNonEmpty, List.all_cons, Bool.and_eq_true]
      exact ⟨hinv.1, ih hinv.2⟩

theorem filter_nil_of_fresh (store : List BsonDoc) (newId : String)
    (hfresh : store.all (fun d => !(d.oid == newId)) = true) :
    store.filter (fun d => d.oid == newId) = [] := by
  induction store with
  | nil => rfl
  | cons d rest ih =>
    rw [List.all_cons, Bool.and_eq_true] at hfresh
    have hd : (d.oid == newId) = false := by
      have h1 := hfresh.1
      simp only [Bool.not_eq_true'] at h1
      exact h1
    simp [List.filter_cons, hd, ih hfresh.2]

theorem createTodo_ok_len (t : Todo) (newId : String) (now : Nat)
    (store : List BsonDoc)
    (h : ((createTodo (some t) newId now false store).1.status
        == StatusCreated) = true) :
    ((createTodo (some t) newId now false store).2).length
      = store.length + 1 := by
  cases he : (t.Title == "") with
  | true =>
    rw [show createTodo (some t) newId now false store
        = ({ status := StatusBadRequest,
             body := RespBody.message "The title is required" }, store) from by
      simp [createTodo, he]] at h
    have hc : (StatusBadRequest == StatusCreated) = true := h
    exact absurd hc (by decide)
  | false =>
    simp [createTodo, he, insertDoc]

theorem deleteTodo_ok_len (rawId : String) (store : List BsonDoc)
    (h : ((deleteTodo rawId store).1.status == StatusOK) = true) :
    ((deleteTodo rawId store).2).length + 1 = store.length := by
  cases hv : isObjectIdHex (trimSpace rawId) with
  | false =>
    rw [show deleteTodo rawId store
        = ({ status := StatusBadRequest,
             body := RespBody.message "The id is invalid" }, store) from by
      simp [deleteTodo, hv]] at h
    have hc : (StatusBadRequest == StatusOK) = true := h
    exact absurd hc (by decide)
  | true =>
    cases hm : store.any (fun d => d.oid == trimSpace rawId) with
    | false =>
      rw [show deleteTodo rawId store
          = ({ status := StatusBadRequest,
               body := RespBody.messageErr "Failed to delete todo" }, store) from by
        simp [deleteTodo, removeId, hv, hm]] at h
      have hc : (StatusBadRequest == StatusOK) = true := h
      exact absurd hc (by decide)
    | true =>
      have hlen := removeFirst_length store (trimSpace rawId) hm
      rw [show (deleteTodo rawId store).2
          = removeFirst store (trimSpace rawId) from by
        simp [deleteTodo, removeId, hv, hm]]
      exact hlen

theorem runOps_length (ops : List Op) : ∀ store : List BsonDoc,
    opsOk store ops = true →
    (runOps store ops).length + countDeletes ops
      = store.length + countCreates ops := by
  induction ops with
  | nil =>
    intro store _
    simp [runOps, countDeletes, countCreates]
  | cons o rest ih =>
    intro store h
    rw [opsOk, Bool.and_eq_true] at h
    obtain ⟨h1, h2⟩ := h
    have hrec := ih (applyOp store o).2 h2
    cases o with
    | create t newId now =>
      have hlen := createTodo_ok_len t newId now store
        (by simpa [opOk, applyOp] using h1)
      simp only [runOps, countDeletes, countCreates, applyOp] at hrec hlen ⊢
      omega
    | delete rawId =>
      have hlen := deleteTodo_ok_len rawId store
        (by simpa [opOk, applyOp] using h1)
      simp only [runOps, countDeletes, countCreates, applyOp] at hrec hlen ⊢
      omega

theorem listedCount_fetch (store : List BsonDoc) :
    listedCount (fetchTodos false store) = store.length := by
  rw [fetchTodos_ok_eq]
  cases store with
  | nil => rfl
  | cons d rest => simp [listedCount]

/-! Claim theorems. -/

/-- C1: the claim says an update by a valid, matching id changes only
`title` and `completed` and leaves `createdAt` unchanged.  The code instead
passes a replacement document with no update operators to the storage
layer, so on the failing input below the stored document keeps its `_id`
but loses the `createdAt` field entirely (it reads back as the zero time
`0` instead of the original `5`).  The identifier is indeed preserved; the
`createdAt` part of the claim fails. -/
theorem updateTodo_replaces_document_dropping_createdAt :
    updateTodo "aaaaaaaaaaaaaaaaaaaaaaaa"
        (some { ID := "", Title := "new", Completed := true, CreatedAt := 0 })
        [{ oid := "aaaaaaaaaaaaaaaaaaaaaaaa", title := "old",
           completed := false, createdAt := some 5 }]
      = ({ status := StatusOK, body := RespBody.empty },
         [{ oid := "aaaaaaaaaaaaaaaaaaaaaaaa", title := "new",
            completed := true, createdAt := none }])
    ∧ (readModel ⟨"aaaaaaaaaaaaaaaaaaaaaaaa", "new", true, none⟩).CreatedAt = 0
    ∧ (readModel ⟨"aaaaaaaaaaaaaaaaaaaaaaaa", "old", false, some 5⟩).CreatedAt = 5 := by
  refine ⟨?_, rfl, rfl⟩
  decide

/-- C2 (claim as stated is false): updating a syntactically valid id that
matches no record does NOT produce the same response as a successful
update.  With no matching document the storage layer reports not-found, so
the handler renders the processing status with "Failed to update todo",
while a matched update writes nothing (status 200, empty body). -/
theorem updateTodo_missing_id_distinguished :
    (updateTodo "aaaaaaaaaaaaaaaaaaaaaaaa"
        (some { ID := "", Title := "new", Completed := true, CreatedAt := 0 })
        []).1
      ≠ (updateTodo "aaaaaaaaaaaaaaaaaaaaaaaa"
          (some { ID := "", Title := "new", Completed := true, CreatedAt := 0 })
          [{ oid := "aaaaaaaaaaaaaaaaaaaaaaaa", title := "old",
             completed := false, createdAt := some 5 }]).1 := by
  decide

/-- C2 (amended): for every update request with a valid id, decodable body
and non-empty title, when no record matches the id the handler returns the
non-standard processing status with message "Failed to update todo" and
leaves the store unchanged — distinguishing the missing-id case from
success — while when a record matches, the handler writes no response body
(status 200 with an empty body). -/
theorem updateTodo_missing_vs_success (rawId : String) (t : Todo)
    (store : List BsonDoc)
    (hid : isObjectIdHex (trimSpace rawId) = true)
    (ht : (t.Title == "") = false) :
    (store.any (fun d => d.oid == trimSpace rawId) = false →
      updateTodo rawId (some t) store =
        ({ status := StatusProcessing,
           body := RespBody.message "Failed to update todo" }, store)) ∧
    (store.any (fun d => d.oid == trimSpace rawId) = true →
      (updateTodo rawId (some t) store).1 =
        { status := StatusOK, body := RespBody.empty }) := by
  constructor
  · intro hmiss
    simp [updateTodo, updateReplace, hid, ht, hmiss]
  · intro hhit
    simp [updateTodo, updateReplace, hid, ht, hhit]

/-- Witness for C2's amended theorem at concrete inputs. -/
theorem updateTodo_missing_vs_success_witness :
    updateTodo oidA (some tNew) [] =
      ({ status := StatusProcessing,
         body := RespBody.message "Failed to update todo" }, []) ∧
    (updateTodo oidA (some tNew) [docA]).1 =
      { status := StatusOK, body := RespBody.empty } :=
  ⟨(updateTodo_missing_vs_success oidA tNew [] (by decide) (by decide)).1
      (by decide),
   (updateTodo_missing_vs_success oidA tNew [docA] (by decide) (by decide)).2
      (by decide)⟩

/-- C4: creating from a body that decodes with an empty title yields 400
with message "The title is required" and leaves the store unchanged. -/
theorem createTodo_empty_title (t : Todo) (newId : String) (now : Nat)
    (insertFail : Bool) (store : List BsonDoc) (ht : t.Title = "") :
    createTodo (some t) newId now insertFail store =
      ({ status := StatusBadRequest,
         body := RespBody.message "The title is required" }, store) := by
  simp [createTodo, ht]

/-- Witness for C4 at concrete inputs. -/
theorem createTodo_empty_title_witness :
    createTodo (some { ID := "", Title := "", Completed := true, CreatedAt := 0 })
        oidA 7 false [docA] =
      ({ status := StatusBadRequest,
         body := RespBody.message "The title is required" }, [docA]) :=
  createTodo_empty_title
    { ID := "", Title := "", Completed := true, CreatedAt := 0 }
    oidA 7 false [docA] rfl

/-- C5: the update handler's checks run in order — invalid id gives 400
"The id is invalid"; valid id with an undecodable body gives the
processing status with "The body is invalid"; valid id with a decoded
empty title gives 400 "The title field is required" — and each failure
leaves the store untouched (no storage call). -/
theorem updateTodo_validation_order (rawId : String) (body : Option Todo)
    (store : List BsonDoc) :
    (isObjectIdHex (trimSpace rawId) = false →
      updateTodo rawId body store =
        ({ status := StatusBadRequest,
           body := RespBody.message "The id is invalid" }, store)) ∧
    (isObjectIdHex (trimSpace rawId) = true → body = none →
      updateTodo rawId body store =
        ({ status := StatusProcessing,
           body := RespBody.messageErr "The body is invalid" }, store)) ∧
    (∀ t : Todo, isObjectIdHex (trimSpace rawId) = true → body = some t →
      t.Title = "" →
      updateTodo rawId body store =
        ({ status := StatusBadRequest,
           body := RespBody.message "The title field is required" }, store)) := by
  refine ⟨?_, ?_, ?_⟩
  · intro hbad
    simp [updateTodo, hbad]
  · intro hid hnone
    subst hnone
    simp [updateTodo, hid]
  · intro t hid hsome htitle
    subst hsome
    simp [updateTodo, hid, htitle]

/-- Witness for C5 at concrete inputs: each of the three failing checks at
an input that triggers it. -/
theorem updateTodo_validation_order_witness :
    updateTodo "zz" (some tNew) [docA] =
      ({ status := StatusBadRequest,
         body := RespBody.message "The id is invalid" }, [docA]) ∧
    updateTodo oidA none [docA] =
      ({ status := StatusProcessing,
         body := RespBody.messageErr "The body is invalid" }, [docA]) ∧
    updateTodo oidA
        (some { ID := "", Title := "", Completed := true, CreatedAt := 0 })
        [docA] =
      ({ status := StatusBadRequest,
         body := RespBody.message "The title field is required" }, [docA]) :=
  ⟨(updateTodo_validation_order "zz" (some tNew) [docA]).1 (by decide),
   (updateTodo_validation_order oidA none [docA]).2.1 (by decide) rfl,
   (updateTodo_validation_order oidA
       (some { ID := "", Title := "", Completed := true, CreatedAt := 0 })
       [docA]).2.2
     { ID := "", Title := "", Completed := true, CreatedAt := 0 }
     (by decide) rfl rfl⟩

/-- C6: deleting with a syntactically invalid id yields 400 with message
"The id is invalid" and the collection is unchanged (no storage call). -/
theorem deleteTodo_invalid_id (rawId : String) (store : List BsonDoc)
    (h : isObjectIdHex (trimSpace rawId) = false) :
    deleteTodo rawId store =
      ({ status := StatusBadRequest,
         body := RespBody.message "The id is invalid" }, store) := by
  simp [deleteTodo, h]

/-- Witness for C6 at a concrete malformed id (wrong length and charset). -/
theorem deleteTodo_invalid_id_witness :
    deleteTodo "not-an-objectid" [docA] =
      ({ status := StatusBadRequest,
         body := RespBody.message "The id is invalid" }, [docA]) :=
  deleteTodo_invalid_id "not-an-objectid" [docA] (by decide)

/-- C10: on an empty collection with a successful query, the list handler
returns 200 with a `data` field that is JSON `null` (the nil slice),
not the empty array. -/
theorem fetchTodos_empty_data_null :
    fetchTodos false [] = { status := StatusOK, body := RespBody.data none } ∧
    RespBody.data none ≠ RespBody.data (some []) := by
  exact ⟨rfl, by decide⟩

/-- C3: a create whose body decodes with a non-empty title (whatever its
`completed` value) returns 201 with the new identifier in hex form, and
afterwards exactly one stored record carries that identifier — with the
submitted title, `completed = false`, and `createdAt` set to the request's
`time.Now()` value, which is at or after the request start. -/
theorem createTodo_success (t : Todo) (newId : String) (now reqStart : Nat)
    (store : List BsonDoc) (ht : (t.Title == "") = false)
    (hfresh : store.all (fun d => !(d.oid == newId)) = true)
    (hnow : reqStart ≤ now) :
    (createTodo (some t) newId now false store).1 =
      { status := StatusCreated,
        body := RespBody.created "todo created successfully"
          (objectIdHex newId) } ∧
    ((createTodo (some t) newId now false store).2).filter
        (fun d => d.oid == newId)
      = [{ oid := newId, title := t.Title, completed := false,
           createdAt := some now }] ∧
    reqStart ≤ now := by
  refine ⟨?_, ?_, hnow⟩
  · simp [createTodo, ht]
  · rw [show (createTodo (some t) newId now false store).2
        = insertDoc store
            { oid := newId, title := t.Title, completed := false,
              createdAt := some now } from by simp [createTodo, ht]]
    rw [insertDoc, List.filter_append, filter_nil_of_fresh store newId hfresh]
    simp

/-- Witness for C3 at concrete inputs: a store holding one other record, a
fresh identifier, and a body whose `completed` is true (ignored). -/
theorem createTodo_success_witness :
    (createTodo (some tNew) oidB 7 false [docA]).1 =
      { status := StatusCreated,
        body := RespBody.created "todo created successfully"
          (objectIdHex oidB) } ∧
    ((createTodo (some tNew) oidB 7 false [docA]).2).filter
        (fun d => d.oid == oidB)
      = [{ oid := oidB, title := tNew.Title, completed := false,
           createdAt := some 7 }] ∧
    3 ≤ 7 :=
  createTodo_success tNew oidB 7 3 [docA] (by decide) (by decide) (by decide)

/-- C7: when the storage query succeeds the list handler returns 200 with a
`data` field holding the views of all stored records (in order, each view
being `viewOf` of the unmarshalled record, with the identifier rendered in
hex); when the query fails it returns the non-standard processing status
with an error message — never a 5xx status in either case. -/
theorem fetchTodos_list_spec (dbFail : Bool) (store : List BsonDoc) :
    (dbFail = false →
      fetchTodos dbFail store =
        { status := StatusOK,
          body := RespBody.data
            (match store with
             | [] => none
             | _ => some ((store.map readModel).map viewOf)) }) ∧
    (dbFail = true →
      fetchTodos dbFail store =
        { status := StatusProcessing,
          body := RespBody.messageErr "Failed to fetch Todo" }) ∧
    ¬(500 ≤ (fetchTodos dbFail store).status ∧
        (fetchTodos dbFail store).status < 600) := by
  refine ⟨?_, ?_, ?_⟩
  · intro h
    subst h
    exact fetchTodos_ok_eq store
  · intro h
    subst h
    rfl
  · have hs : (fetchTodos dbFail store).status = StatusProcessing ∨
        (fetchTodos dbFail store).status = StatusOK := by
      cases dbFail with
      | true => exact Or.inl rfl
      | false =>
        right
        rw [fetchTodos_ok_eq]
    rcases hs with h | h <;> rw [h] <;> decide

/-- Witness for C7 at concrete inputs: one success and one failure. -/
theorem fetchTodos_list_spec_witness :
    fetchTodos false [docA] =
      { status := StatusOK,
        body := RespBody.data (some [viewOf (readModel docA)]) } ∧
    fetchTodos true [docA] =
      { status := StatusProcessing,
        body := RespBody.messageErr "Failed to fetch Todo" } :=
  ⟨(fetchTodos_list_spec false [docA]).1 rfl,
   (fetchTodos_list_spec true [docA]).2.1 rfl⟩

/-- C8: from the empty collection, after any sequence of operations in
which every create succeeds (N of them) and every delete succeeds (M of
them), a successful list returns exactly N − M records (stated additively:
count + M = N). -/
theorem listing_after_ops (ops : List Op) (h : opsOk [] ops = true) :
    listedCount (fetchTodos false (runOps [] ops)) + countDeletes ops
      = countCreates ops := by
  have hlen := runOps_length ops [] h
  rw [listedCount_fetch]
  simpa using hlen

/-- Witness for C8: two successful creates then one successful delete,
after which listing counts one record (1 + 1 = 2). -/
theorem listing_after_ops_witness :
    listedCount (fetchTodos false (runOps []
        [Op.create tNew oidA 0, Op.create tNew oidB 1, Op.delete oidA])) + 1
      = 2 :=
  listing_after_ops
    [Op.create tNew oidA 0, Op.create tNew oidB 1, Op.delete oidA]
    (by decide)

/-- C9: "every stored record has a non-empty title" holds of the empty
collection and is preserved by each handler: create and update reject an
empty title before writing, and delete only removes records. -/
theorem titlesNonEmpty_invariant (store : List BsonDoc)
    (hinv : titlesNonEmpty store = true) :
    titlesNonEmpty ([] : List BsonDoc) = true ∧
    (∀ body newId now insertFail,
      titlesNonEmpty (createTodo body newId now insertFail store).2 = true) ∧
    (∀ rawId body, titlesNonEmpty (updateTodo rawId body store).2 = true) ∧
    (∀ rawId, titlesNonEmpty (deleteTodo rawId store).2 = true) := by
  refine ⟨rfl, ?_, ?_, ?_⟩
  · intro body newId now insertFail
    match body with
    | none => exact hinv
    | some t =>
      cases he : (t.Title == "") with
      | true =>
        rw [show (createTodo (some t) newId now insertFail store).2 = store from by
          simp [createTodo, he]]
        exact hinv
      | false =>
        cases hf : insertFail with
        | true =>
          rw [show (createTodo (some t) newId now true store).2 = store from by
            simp [createTodo, he]]
          exact hinv
        | false =>
          rw [show (createTodo (some t) newId now false store).2
              = insertDoc store
                  { oid := newId, title := t.Title, completed := false,
                    createdAt := some now } from by simp [createTodo, he]]
          rw [insertDoc, titlesNonEmpty, List.all_append]
          rw [titlesNonEmpty] at hinv
          simp [hinv, he]
  · intro rawId body
    cases hv : isObjectIdHex (trimSpace rawId) with
    | false =>
      rw [show (updateTodo rawId body store).2 = store from by
        simp [updateTodo, hv]]
      exact hinv
    | true =>
      match body with
      | none =>
        rw [show (updateTodo rawId none store).2 = store from by
          simp [updateTodo, hv]]
        exact hinv
      | some t =>
        cases he : (t.Title == "") with
        | true =>
          rw [show (updateTodo rawId (some t) store).2 = store from by
            simp [updateTodo, hv, he]]
          exact hinv
        | false =>
          cases hm : store.any (fun d => d.oid == trimSpace rawId) with
          | false =>
            rw [show (updateTodo rawId (some t) store).2 = store from by
              simp [updateTodo, updateReplace, hv, he, hm]]
            exact hinv
          | true =>
            rw [show (updateTodo rawId (some t) store).2
                = replaceFirst store (trimSpace rawId) t.Title t.Completed from by
              simp [updateTodo, updateReplace, hv, he, hm]]
            exact titlesNonEmpty_replaceFirst store (trimSpace rawId)
              t.Title t.Completed hinv he
  · intro rawId
    cases hv : isObjectIdHex (trimSpace rawId) with
    | false =>
      rw [show (deleteTodo rawId store).2 = store from by
        simp [deleteTodo, hv]]
      exact hinv
    | true =>
      cases hm : store.any (fun d => d.oid == trimSpace rawId) with
      | false =>
        rw [show (deleteTodo rawId store).2 = store from by
          simp [deleteTodo, removeId, hv, hm]]
        exact hinv
      | true =>
        rw [show (deleteTodo rawId store).2
            = removeFirst store (trimSpace rawId) from by
          simp [deleteTodo, removeId, hv, hm]]
        exact titlesNonEmpty_removeFirst store (trimSpace rawId) hinv

/-- Witness for C9 at concrete inputs: one stored record with a non-empty
title, exercised through create, update, and delete. -/
theorem titlesNonEmpty_invariant_witness :
    titlesNonEmpty (createTodo (some tNew) oidB 0 false [docA]).2 = true ∧
    titlesNonEmpty (updateTodo oidA (some tNew) [docA]).2 = true ∧
    titlesNonEmpty (deleteTodo oidA [docA]).2 = true :=
  ⟨(titlesNonEmpty_invariant [docA] (by decide)).2.1 (some tNew) oidB 0 false,
   (titlesNonEmpty_invariant [docA] (by decide)).2.2.1 oidA (some tNew),
   (titlesNonEmpty_invariant [docA] (by decide)).2.2.2 oidA⟩

end TodoSpec
